import Mathlib

/-!
Verification of the risk-scoring edge function of neon-risk-insight.

The source of truth is the request handler and the `predictRisk` heuristic
in the serverless function (TypeScript).  Numbers are modelled as exact
rationals; the `Math.random()` perturbation `Math.random() * 0.02 - 0.01`
is modelled as an explicit parameter `e` with `-0.01 ≤ e ≤ 0.01`; the
special IEEE values produced by division by zero are modelled separately
by the `JsNum` type with JavaScript comparison semantics.
-/

namespace NeonRisk

/-- The applicant record of the `ApplicantData` interface: eight required
fields, five numeric and three strings. -/
structure ApplicantData where
  annual_income : ℚ
  credit_amount : ℚ
  annuity : ℚ
  age : ℚ
  employment_years : ℚ
  gender : String
  contract_type : String
  education : String
deriving Repr, DecidableEq

/-- The cutoff triple loaded from `artifacts_meta.json` (`meta.cutoffs`),
kept abstract since the metadata file is configuration. -/
structure Cutoffs where
  A : ℚ
  B : ℚ
  C : ℚ
deriving Repr, DecidableEq

/-- The accumulated `riskScore` of `predictRisk` before the clamp,
translated line by line from the if/else chains of the source: the
credit-to-income chain, the debt-to-income chain, the age chain, the
employment chain, the contract-type test and the education chain, each
added to the running score. -/
def rawRiskScore (d : ApplicantData) : ℚ :=
  let creditToIncome := d.credit_amount / d.annual_income
  let debtToIncome := (d.annuity * 12) / d.annual_income
  let s1 : ℚ :=
    if creditToIncome > 3 then 8/100
    else if creditToIncome > 2 then 5/100
    else if creditToIncome > 1 then 3/100
    else 0
  let s2 := s1 +
    (if debtToIncome > 1/2 then 6/100
     else if debtToIncome > 3/10 then 3/100
     else 0)
  let s3 := s2 +
    (if d.age < 25 then 4/100
     else if d.age > 60 then 2/100
     else 0)
  let s4 := s3 +
    (if d.employment_years < 1 then 5/100
     else if d.employment_years < 3 then 3/100
     else if d.employment_years > 10 then -(2/100)
     else 0)
  let s5 := s4 + (if d.contract_type = "Revolving loans" then 2/100 else 0)
  s5 +
    (if d.education = "Academic degree" ∨ d.education = "Higher education" then -(2/100)
     else if d.education = "Lower secondary" then 2/100
     else 0)

/-- The `baseProbability` of the source:
`Math.max(0, Math.min(0.4, riskScore))`. -/
def baseProbability (d : ApplicantData) : ℚ :=
  max 0 (min (2/5) (rawRiskScore d))

/-- The final probability: clamped base plus the random perturbation,
the latter modelled as the explicit parameter `e`. -/
def probabilityOf (d : ApplicantData) (e : ℚ) : ℚ :=
  baseProbability d + e

/-- The bucket assignment of the source: `bucket = "D"` overwritten by the
first of the three `<=` tests that fires, in order A, B, C. -/
def bucketOf (p : ℚ) (c : Cutoffs) : String :=
  if p ≤ c.A then "A"
  else if p ≤ c.B then "B"
  else if p ≤ c.C then "C"
  else "D"

/-- The full `predictRisk` function: probability and bucket. -/
def predictRisk (d : ApplicantData) (e : ℚ) (c : Cutoffs) : ℚ × String :=
  let probability := probabilityOf d e
  (probability, bucketOf probability c)

section SpecTable

/-!
The adjustment table of the specification (its section 4.2), written as a
sum of independent rules, each with the bounded condition of the table
(for instance credit-to-income `>2 (and ≤3)`).  This is the second,
spec-side definition that the code-side `rawRiskScore` is compared with.
The shorthand labels of the table stand for the canonical strings of the
external interface: "Revolving loans", "Academic degree",
"Higher education", "Lower secondary".
-/

/-- Spec table, credit-to-income group. -/
def ctiAdjust (r : ℚ) : ℚ :=
  (if r > 3 then 8/100 else 0) +
  (if r > 2 ∧ r ≤ 3 then 5/100 else 0) +
  (if r > 1 ∧ r ≤ 2 then 3/100 else 0)

/-- Spec table, debt-to-income group. -/
def dtiAdjust (r : ℚ) : ℚ :=
  (if r > 1/2 then 6/100 else 0) +
  (if r > 3/10 ∧ r ≤ 1/2 then 3/100 else 0)

/-- Spec table, age group. -/
def ageAdjust (a : ℚ) : ℚ :=
  (if a < 25 then 4/100 else 0) +
  (if a > 60 then 2/100 else 0)

/-- Spec table, employment-years group. -/
def empAdjust (y : ℚ) : ℚ :=
  (if y < 1 then 5/100 else 0) +
  (if y < 3 ∧ 1 ≤ y then 3/100 else 0) +
  (if y > 10 then -(2/100) else 0)

/-- Spec table, contract-type rule. -/
def contractAdjust (s : String) : ℚ :=
  if s = "Revolving loans" then 2/100 else 0

/-- Spec table, education group. -/
def educationAdjust (s : String) : ℚ :=
  (if s = "Academic degree" ∨ s = "Higher education" then -(2/100) else 0) +
  (if s = "Lower secondary" then 2/100 else 0)

/-- The sum of all applicable adjustments of the spec table. -/
def specAdjustmentSum (d : ApplicantData) : ℚ :=
  ctiAdjust (d.credit_amount / d.annual_income) +
  dtiAdjust ((d.annuity * 12) / d.annual_income) +
  ageAdjust d.age +
  empAdjust d.employment_years +
  contractAdjust d.contract_type +
  educationAdjust d.education

end SpecTable

/-- The scenario record of the spec's section 8 (the feature medians). -/
def scenarioRecord : ApplicantData :=
  { annual_income := 147150
    credit_amount := 599025
    annuity := 27108
    age := 35
    employment_years := 5
    gender := "F"
    contract_type := "Cash loans"
    education := "Higher education" }

/-- An applicant record for which no scoring rule fires. -/
def neutralRecord : ApplicantData :=
  { annual_income := 100000
    credit_amount := 50000
    annuity := 0
    age := 35
    employment_years := 5
    gender := "F"
    contract_type := "Cash loans"
    education := "Secondary / secondary special" }

/-- The risk order of the bucket labels: A safest, D riskiest. -/
def bucketRank (b : String) : ℕ :=
  if b = "A" then 0
  else if b = "B" then 1
  else if b = "C" then 2
  else 3

/-- The `requiredFields` array of the handler. -/
def requiredFields : List String :=
  ["annual_income", "credit_amount", "annuity", "age", "employment_years",
   "gender", "contract_type", "education"]

/-- The handler's validation loop: the first required field whose key is
not present in the data object (`!(field in data)`), if any.  Key
presence is modelled by the predicate `has`. -/
def firstMissingField (has : String → Bool) : Option String :=
  requiredFields.find? (fun f => !(has f))

/-- The body of a response: either the JSON `{ probability, bucket }` of
a successful prediction, or the JSON `{ error, details }` of a failure. -/
inductive ResponseBody where
  | success (probability : ℚ) (bucket : String)
  | failure (error : String) (details : String)
deriving Repr, DecidableEq

/-- A response: HTTP status code plus body. -/
structure Response where
  status : ℕ
  body : ResponseBody
deriving Repr, DecidableEq

/-- A JavaScript value as far as the handler inspects one: the `data`
member of the parsed body.  An object carries the key-presence predicate
consulted by the `in` operator and the payload read by `predictRisk`. -/
inductive JsValue where
  | null
  | boolean (b : Bool)
  | num (q : ℚ)
  | str (s : String)
  | obj (has : String → Bool) (payload : ApplicantData)

/-- JavaScript truthiness of a value: null, false, 0 and the empty string
are falsy; every object is truthy. -/
def truthy : JsValue → Bool
  | .null => false
  | .boolean b => b
  | .num q => decide (q ≠ 0)
  | .str s => decide (s ≠ "")
  | .obj _ _ => true

/-- The input to the try-block of the handler: either `req.json()` threw
(a non-JSON body), or it produced a body whose `data` member is the given
value (`none` when the key is absent, so that `body.data` is undefined
and falsy). -/
inductive HandlerInput where
  | badJson (msg : String)
  | parsed (dataField : Option JsValue)

/-- Truthiness of `body.data`: an absent member is undefined, hence falsy. -/
def dataTruthy : Option JsValue → Bool
  | none => false
  | some v => truthy v

/-- The catch-branch of the handler: status 500 with the error message and
the fixed details string. -/
def errorResponse (msg : String) : Response :=
  { status := 500, body := .failure msg "Failed to process prediction request" }

/-- The try/catch of the `serve` handler, translated from the source:
check `body.data` for truthiness, then check the eight required keys in
order, then call `predictRisk` and answer 200; any thrown error is caught
and answered as a 500 with its message. -/
def handleRequest (inp : HandlerInput) (e : ℚ) (c : Cutoffs) : Response :=
  match inp with
  | .badJson msg => errorResponse msg
  | .parsed dv =>
    if dataTruthy dv then
      match dv with
      | some (.obj has payload) =>
        match firstMissingField has with
        | some fld => errorResponse ("Missing required field: " ++ fld)
        | none =>
          let r := predictRisk payload e c
          { status := 200, body := .success r.1 r.2 }
      | _ => errorResponse "Cannot use the in operator to search for a field in a non-object"
    else errorResponse "Missing data field in request"

/-- A JavaScript number as needed to track the special values produced by
division by zero: a finite rational, the two infinities, or NaN. -/
inductive JsNum where
  | fin (q : ℚ)
  | posInf
  | negInf
  | nan
deriving Repr, DecidableEq

/-- JavaScript division: a positive finite value divided by (positive)
zero gives +Infinity, a negative one gives −Infinity, 0/0 gives NaN, and
NaN propagates. -/
def jsDiv : JsNum → JsNum → JsNum
  | .nan, _ => .nan
  | _, .nan => .nan
  | .fin p, .fin q =>
    if q = 0 then
      (if p > 0 then .posInf else if p < 0 then .negInf else .nan)
    else .fin (p / q)
  | .posInf, .fin q => if q < 0 then .negInf else .posInf
  | .negInf, .fin q => if q < 0 then .posInf else .negInf
  | .fin _, .posInf => .fin 0
  | .fin _, .negInf => .fin 0
  | .posInf, .posInf => .nan
  | .posInf, .negInf => .nan
  | .negInf, .posInf => .nan
  | .negInf, .negInf => .nan

/-- JavaScript multiplication on the same value space. -/
def jsMul : JsNum → JsNum → JsNum
  | .nan, _ => .nan
  | _, .nan => .nan
  | .fin p, .fin q => .fin (p * q)
  | .posInf, .fin q => if q > 0 then .posInf else if q < 0 then .negInf else .nan
  | .fin p, .posInf => if p > 0 then .posInf else if p < 0 then .negInf else .nan
  | .negInf, .fin q => if q > 0 then .negInf else if q < 0 then .posInf else .nan
  | .fin p, .negInf => if p > 0 then .negInf else if p < 0 then .posInf else .nan
  | .posInf, .posInf => .posInf
  | .posInf, .negInf => .negInf
  | .negInf, .posInf => .negInf
  | .negInf, .negInf => .posInf

/-- The JavaScript `>` comparison: any comparison with NaN is false;
+Infinity is greater than everything but itself. -/
def jsGt : JsNum → JsNum → Bool
  | .nan, _ => false
  | _, .nan => false
  | .fin p, .fin q => decide (p > q)
  | .posInf, .posInf => false
  | .posInf, _ => true
  | .negInf, _ => false
  | .fin _, .posInf => false
  | .fin _, .negInf => true

/-- `Math.min`: NaN-propagating minimum. -/
def jsMin : JsNum → JsNum → JsNum
  | .nan, _ => .nan
  | _, .nan => .nan
  | .negInf, _ => .negInf
  | _, .negInf => .negInf
  | .posInf, b => b
  | a, .posInf => a
  | .fin p, .fin q => .fin (min p q)

/-- `Math.max`: NaN-propagating maximum. -/
def jsMax : JsNum → JsNum → JsNum
  | .nan, _ => .nan
  | _, .nan => .nan
  | .posInf, _ => .posInf
  | _, .posInf => .posInf
  | .negInf, b => b
  | a, .negInf => a
  | .fin p, .fin q => .fin (max p q)

/-- JavaScript addition on the same value space. -/
def jsAdd : JsNum → JsNum → JsNum
  | .nan, _ => .nan
  | _, .nan => .nan
  | .fin p, .fin q => .fin (p + q)
  | .posInf, .negInf => .nan
  | .negInf, .posInf => .nan
  | .posInf, _ => .posInf
  | _, .posInf => .posInf
  | .negInf, _ => .negInf
  | _, .negInf => .negInf

/-- The accumulated `riskScore` with the two ratio computations carried
out in JavaScript arithmetic, so that a zero income produces infinite or
NaN ratios flowing into the `>` comparisons exactly as in the source.
The score itself stays a finite number: every branch adds a constant. -/
def jsRiskScore (d : ApplicantData) : ℚ :=
  let creditToIncome := jsDiv (.fin d.credit_amount) (.fin d.annual_income)
  let debtToIncome := jsDiv (jsMul (.fin d.annuity) (.fin 12)) (.fin d.annual_income)
  let s1 : ℚ :=
    if jsGt creditToIncome (.fin 3) then 8/100
    else if jsGt creditToIncome (.fin 2) then 5/100
    else if jsGt creditToIncome (.fin 1) then 3/100
    else 0
  let s2 := s1 +
    (if jsGt debtToIncome (.fin (1/2)) then 6/100
     else if jsGt debtToIncome (.fin (3/10)) then 3/100
     else 0)
  let s3 := s2 +
    (if d.age < 25 then 4/100
     else if d.age > 60 then 2/100
     else 0)
  let s4 := s3 +
    (if d.employment_years < 1 then 5/100
     else if d.employment_years < 3 then 3/100
     else if d.employment_years > 10 then -(2/100)
     else 0)
  let s5 := s4 + (if d.contract_type = "Revolving loans" then 2/100 else 0)
  s5 +
    (if d.education = "Academic degree" ∨ d.education = "Higher education" then -(2/100)
     else if d.education = "Lower secondary" then 2/100
     else 0)

/-- The probability in JavaScript arithmetic: NaN-propagating clamp
`Math.max(0, Math.min(0.4, riskScore))` followed by the perturbation. -/
def jsPredict (d : ApplicantData) (e : ℚ) : JsNum :=
  jsAdd (jsMax (.fin 0) (jsMin (.fin (2/5)) (.fin (jsRiskScore d)))) (.fin e)

/-- The scenario record with its income replaced by zero. -/
def zeroIncomeRecord : ApplicantData :=
  { annual_income := 0
    credit_amount := 599025
    annuity := 27108
    age := 35
    employment_years := 5
    gender := "F"
    contract_type := "Cash loans"
    education := "Higher education" }

lemma cti_chain_eq (r : ℚ) :
    (if r > 3 then (8:ℚ)/100 else if r > 2 then 5/100 else if r > 1 then 3/100 else 0)
      = ctiAdjust r := by
  unfold ctiAdjust
  rcases le_or_lt r 1 with h1 | h1
  · have a1 : ¬ (3:ℚ) < r := by linarith
    have a2 : ¬ (2:ℚ) < r := by linarith
    have a3 : ¬ (1:ℚ) < r := by linarith
    simp [a1, a2, a3]
  · rcases le_or_lt r 2 with h2 | h2
    · have a1 : ¬ (3:ℚ) < r := by linarith
      have a2 : ¬ (2:ℚ) < r := by linarith
      simp [a1, a2, h1, h2]
    · rcases le_or_lt r 3 with h3 | h3
      · have a1 : ¬ (3:ℚ) < r := by linarith
        have a2 : ¬ r ≤ 2 := by linarith
        simp [a1, a2, h2, h3]
      · have a2 : ¬ r ≤ 3 := by linarith
        have a3 : ¬ r ≤ 2 := by linarith
        simp [h3, a2, a3]

lemma dti_chain_eq (r : ℚ) :
    (if r > 1/2 then (6:ℚ)/100 else if r > 3/10 then 3/100 else 0) = dtiAdjust r := by
  unfold dtiAdjust
  rcases le_or_lt r (3/10) with h1 | h1
  · have a1 : ¬ r > 1/2 := by push_neg; linarith
    have a2 : ¬ r > 3/10 := by push_neg; linarith
    rw [if_neg a1, if_neg a2, if_neg a1,
      if_neg (show ¬(r > 3/10 ∧ r ≤ 1/2) from fun hh => a2 hh.1)]
    norm_num
  · rcases le_or_lt r (1/2) with h2 | h2
    · have a1 : ¬ r > 1/2 := not_lt.mpr h2
      rw [if_neg a1, if_pos h1, if_neg a1,
        if_pos (show r > 3/10 ∧ r ≤ 1/2 from ⟨h1, h2⟩)]
      norm_num
    · have a2 : ¬ r ≤ 1/2 := not_le.mpr h2
      rw [if_pos h2, if_pos h2,
        if_neg (show ¬(r > 3/10 ∧ r ≤ 1/2) from fun hh => a2 hh.2)]
      norm_num

lemma age_chain_eq (a : ℚ) :
    (if a < 25 then (4:ℚ)/100 else if a > 60 then 2/100 else 0) = ageAdjust a := by
  unfold ageAdjust
  rcases lt_or_le a 25 with h1 | h1
  · have a1 : ¬ (60:ℚ) < a := by linarith
    simp [h1, a1]
  · have a1 : ¬ a < 25 := by linarith
    simp [a1]

lemma emp_chain_eq (y : ℚ) :
    (if y < 1 then (5:ℚ)/100 else if y < 3 then 3/100 else if y > 10 then -(2/100) else 0)
      = empAdjust y := by
  unfold empAdjust
  rcases lt_or_le y 1 with h1 | h1
  · have a1 : y < 3 := by linarith
    have a2 : ¬ (10:ℚ) < y := by linarith
    simp [h1, a1, a2]
  · rcases lt_or_le y 3 with h2 | h2
    · have a1 : ¬ y < 1 := by linarith
      have a2 : ¬ (10:ℚ) < y := by linarith
      simp [a1, h2, h1, a2]
    · rcases le_or_lt y 10 with h3 | h3
      · have a1 : ¬ y < 1 := by linarith
        have a2 : ¬ y < 3 := by linarith
        have a3 : ¬ (10:ℚ) < y := by linarith
        simp [a1, a2, a3]
      · have a1 : ¬ y < 1 := by linarith
        have a2 : ¬ y < 3 := by linarith
        simp [a1, a2, h3]

lemma education_chain_eq (s : String) :
    (if s = "Academic degree" ∨ s = "Higher education" then -((2:ℚ)/100)
     else if s = "Lower secondary" then 2/100 else 0) = educationAdjust s := by
  unfold educationAdjust
  split_ifs with h1 h2 <;> try norm_num
  rcases h1 with h1 | h1 <;> rw [h1] at h2 <;> simp at h2

lemma rawRiskScore_eq_specSum (d : ApplicantData) :
    rawRiskScore d = specAdjustmentSum d := by
  simp only [rawRiskScore, specAdjustmentSum]
  rw [cti_chain_eq, dti_chain_eq, age_chain_eq, emp_chain_eq, education_chain_eq]
  rfl

lemma ctiAdjust_values (r : ℚ) :
    ctiAdjust r = 8/100 ∨ ctiAdjust r = 5/100 ∨ ctiAdjust r = 3/100 ∨ ctiAdjust r = 0 := by
  rw [← cti_chain_eq]
  split_ifs <;> norm_num

lemma dtiAdjust_values (r : ℚ) :
    dtiAdjust r = 6/100 ∨ dtiAdjust r = 3/100 ∨ dtiAdjust r = 0 := by
  rw [← dti_chain_eq]
  split_ifs <;> norm_num

lemma ageAdjust_values (a : ℚ) :
    ageAdjust a = 4/100 ∨ ageAdjust a = 2/100 ∨ ageAdjust a = 0 := by
  rw [← age_chain_eq]
  split_ifs <;> norm_num

lemma empAdjust_values (y : ℚ) :
    empAdjust y = 5/100 ∨ empAdjust y = 3/100 ∨ empAdjust y = -(2/100) ∨ empAdjust y = 0 := by
  rw [← emp_chain_eq]
  split_ifs <;> norm_num

lemma cash_ne_revolving : ¬ ("Cash loans" = "Revolving loans") := by decide

lemma secondary_not_higher :
    ¬ ("Secondary / secondary special" = "Academic degree" ∨
       "Secondary / secondary special" = "Higher education") := by decide

lemma secondary_ne_lower : ¬ ("Secondary / secondary special" = "Lower secondary") := by decide

lemma find_missing_unique (l : List String) (has : String → Bool) (fld : String)
    (h1 : fld ∈ l) (h2 : has fld = false)
    (h3 : ∀ g ∈ l, g ≠ fld → has g = true) :
    l.find? (fun f => !(has f)) = some fld := by
  induction l with
  | nil => cases h1
  | cons a t ih =>
    by_cases ha : a = fld
    · subst ha
      simp [List.find?, h2]
    · have hga : has a = true := h3 a (List.mem_cons_self a t) ha
      have h1t : fld ∈ t := by
        rcases List.mem_cons.mp h1 with h | h
        · exact absurd h.symm ha
        · exact h
      have h3t : ∀ g ∈ t, g ≠ fld → has g = true :=
        fun g hg => h3 g (List.mem_cons_of_mem a hg)
      simp [List.find?, hga]
      exact ih h1t h3t

/-- C1: for every applicant record with positive income, the raw pre-clamp
risk score equals the sum of the applicable adjustments of the spec table
(all threshold comparisons strict); a credit-to-income ratio of exactly 3
earns the +0.05 adjustment of the `>2 (and ≤3)` rule, not +0.08; and
within each rule group at most one adjustment applies, so each group
contributes exactly one of its individual rule values (or nothing). -/
theorem c1_raw_score_is_table_sum (d : ApplicantData) (h : 0 < d.annual_income) :
    rawRiskScore d = specAdjustmentSum d ∧
    (d.credit_amount / d.annual_income = 3 →
      ctiAdjust (d.credit_amount / d.annual_income) = 5/100) ∧
    (ctiAdjust (d.credit_amount / d.annual_income) = 8/100 ∨
     ctiAdjust (d.credit_amount / d.annual_income) = 5/100 ∨
     ctiAdjust (d.credit_amount / d.annual_income) = 3/100 ∨
     ctiAdjust (d.credit_amount / d.annual_income) = 0) ∧
    (dtiAdjust ((d.annuity * 12) / d.annual_income) = 6/100 ∨
     dtiAdjust ((d.annuity * 12) / d.annual_income) = 3/100 ∨
     dtiAdjust ((d.annuity * 12) / d.annual_income) = 0) ∧
    (ageAdjust d.age = 4/100 ∨ ageAdjust d.age = 2/100 ∨ ageAdjust d.age = 0) ∧
    (empAdjust d.employment_years = 5/100 ∨ empAdjust d.employment_years = 3/100 ∨
     empAdjust d.employment_years = -(2/100) ∨ empAdjust d.employment_years = 0) := by
  refine ⟨rawRiskScore_eq_specSum d, ?_, ctiAdjust_values _, dtiAdjust_values _,
    ageAdjust_values _, empAdjust_values _⟩
  intro hq
  rw [hq]
  norm_num [ctiAdjust]

/-- Witness for C1: the theorem applied to the concrete scenario record,
whose income is positive. -/
theorem c1_raw_score_is_table_sum_witness :
    (0:ℚ) < 147150 ∧ rawRiskScore scenarioRecord = specAdjustmentSum scenarioRecord :=
  ⟨by norm_num, (c1_raw_score_is_table_sum scenarioRecord (by norm_num [scenarioRecord])).1⟩

/-- C2 counterexample: on the spec's scenario input the derived
debt-to-income ratio is greater than 2 (not approximately 0.221), the
debt-to-income rule therefore fires, and the raw pre-clamp score is 0.12,
not 0.06 as the claim states. -/
theorem c2_scenario_counterexample :
    ((27108:ℚ) * 12) / 147150 > 2 ∧
    rawRiskScore scenarioRecord = 12/100 ∧
    rawRiskScore scenarioRecord ≠ 6/100 := by
  have hs : rawRiskScore scenarioRecord = 12/100 := by
    norm_num [rawRiskScore, scenarioRecord, cash_ne_revolving]
  refine ⟨by norm_num, hs, by rw [hs]; norm_num⟩

/-- C2 amended: on the scenario input the debt-to-income ratio is
6024/2725 (about 2.211, far above the 0.5 threshold, earning +0.06), the
credit-to-income ratio exceeds 3 (earning +0.08), education earns −0.02,
and the raw pre-clamp score is exactly 0.12, unchanged by the clamp. -/
theorem c2_scenario_amended :
    (scenarioRecord.annuity * 12) / scenarioRecord.annual_income = 6024/2725 ∧
    scenarioRecord.credit_amount / scenarioRecord.annual_income > 3 ∧
    rawRiskScore scenarioRecord = 12/100 ∧
    baseProbability scenarioRecord = 12/100 := by
  have hs : rawRiskScore scenarioRecord = 12/100 := by
    norm_num [rawRiskScore, scenarioRecord, cash_ne_revolving]
  refine ⟨by norm_num [scenarioRecord], by norm_num [scenarioRecord], hs, ?_⟩
  rw [baseProbability, hs]
  rw [min_eq_right (by norm_num : (12:ℚ)/100 ≤ 2/5), max_eq_right (by norm_num : (0:ℚ) ≤ 12/100)]

/-- C3: the raw score is clamped to max(0, min(0.4, s)) and the
perturbation e (with −0.01 ≤ e ≤ 0.01) is added only afterwards, so every
returned probability lies in [−0.01, 0.41]; and for some record and some
admissible e the returned probability is strictly below 0 or strictly
above 0.4. -/
theorem c3_clamp_before_perturbation :
    (∀ (d : ApplicantData) (e : ℚ), -(1/100) ≤ e → e ≤ 1/100 →
      probabilityOf d e = max 0 (min (2/5) (rawRiskScore d)) + e ∧
      -(1/100) ≤ probabilityOf d e ∧ probabilityOf d e ≤ 41/100) ∧
    (∃ (d : ApplicantData) (e : ℚ), -(1/100) ≤ e ∧ e ≤ 1/100 ∧
      (probabilityOf d e < 0 ∨ probabilityOf d e > 2/5)) := by
  constructor
  · intro d e he1 he2
    refine ⟨rfl, ?_, ?_⟩
    · have hb : 0 ≤ baseProbability d := by
        unfold baseProbability
        exact le_max_left _ _
      have : probabilityOf d e = baseProbability d + e := rfl
      linarith
    · have hb : baseProbability d ≤ 2/5 := by
        unfold baseProbability
        exact max_le (by norm_num) (min_le_left _ _)
      have : probabilityOf d e = baseProbability d + e := rfl
      linarith
  · refine ⟨neutralRecord, -(1/100), by norm_num, by norm_num, Or.inl ?_⟩
    have hs : rawRiskScore neutralRecord = 0 := by
      norm_num [rawRiskScore, neutralRecord, cash_ne_revolving, secondary_not_higher,
        secondary_ne_lower]
    have hb : baseProbability neutralRecord = 0 := by
      rw [baseProbability, hs]
      rw [min_eq_right (by norm_num : (0:ℚ) ≤ 2/5), max_self]
    have hp : probabilityOf neutralRecord (-(1/100)) = baseProbability neutralRecord + -(1/100) := rfl
    rw [hp, hb]
    norm_num

/-- C4 counterexample: with the unordered cutoff triple (1, 0, 2) and
probability 1/2, the condition `cutoff B < p ≤ cutoff C` holds and yet the
classifier returns "A", not "C", because the `p ≤ cutoff A` test is
checked first; so the claim's characterization fails for arbitrary
(unordered) cutoffs. -/
theorem c4_bucket_iff_counterexample :
    (Cutoffs.mk 1 0 2).B < 1/2 ∧ (1:ℚ)/2 ≤ (Cutoffs.mk 1 0 2).C ∧
    bucketOf (1/2) (Cutoffs.mk 1 0 2) = "A" ∧
    bucketOf (1/2) (Cutoffs.mk 1 0 2) ≠ "C" := by
  have hb : bucketOf (1/2) (Cutoffs.mk 1 0 2) = "A" := by
    unfold bucketOf
    rw [if_pos (by norm_num : (1:ℚ)/2 ≤ (Cutoffs.mk 1 0 2).A)]
  refine ⟨by norm_num, by norm_num, hb, by rw [hb]; decide⟩

/-- C4 amended: for cutoffs ordered as cutoff A ≤ cutoff B ≤ cutoff C, the
classifier returns "A" iff p ≤ cutoff A, "B" iff cutoff A < p ≤ cutoff B,
"C" iff cutoff B < p ≤ cutoff C and "D" iff cutoff C < p, with ties going
to the safer bucket; the result is always one of A, B, C, D. -/
theorem c4_bucket_characterization (p : ℚ) (c : Cutoffs)
    (hAB : c.A ≤ c.B) (hBC : c.B ≤ c.C) :
    (bucketOf p c = "A" ↔ p ≤ c.A) ∧
    (bucketOf p c = "B" ↔ c.A < p ∧ p ≤ c.B) ∧
    (bucketOf p c = "C" ↔ c.B < p ∧ p ≤ c.C) ∧
    (bucketOf p c = "D" ↔ c.C < p) ∧
    (bucketOf p c = "A" ∨ bucketOf p c = "B" ∨ bucketOf p c = "C" ∨ bucketOf p c = "D") := by
  unfold bucketOf
  split_ifs with h1 h2 h3 <;>
    refine ⟨?_, ?_, ?_, ?_, ?_⟩ <;>
    simp <;>
    push_neg at * <;>
    first
      | linarith
      | (constructor <;> linarith)
      | (intro hh; linarith)

/-- Witness for C4 amended: the characterization applied at probability
1/2 with the ordered cutoffs (1, 2, 3); the first clause evaluates. -/
theorem c4_bucket_characterization_witness :
    (bucketOf (1/2) (Cutoffs.mk 1 2 3) = "A" ↔ (1:ℚ)/2 ≤ (Cutoffs.mk 1 2 3).A) :=
  (c4_bucket_characterization (1/2) (Cutoffs.mk 1 2 3) (by norm_num) (by norm_num)).1

/-- C5: for cutoffs with cutoff A < cutoff B < cutoff C and probabilities
p1 < p2, the bucket of p2 is never strictly safer (earlier in the order
A < B < C < D) than the bucket of p1. -/
theorem c5_bucket_monotone (c : Cutoffs) (p1 p2 : ℚ)
    (hAB : c.A < c.B) (hBC : c.B < c.C) (hp : p1 < p2) :
    bucketRank (bucketOf p1 c) ≤ bucketRank (bucketOf p2 c) := by
  unfold bucketOf
  split_ifs <;>
    first
      | (simp [bucketRank]; done)
      | (exfalso; simp_all only [not_le]; linarith)

/-- Witness for C5: monotonicity applied at cutoffs (1, 2, 3) and
probabilities 3/2 < 5/2. -/
theorem c5_bucket_monotone_witness :
    bucketRank (bucketOf (3/2) (Cutoffs.mk 1 2 3)) ≤
      bucketRank (bucketOf (5/2) (Cutoffs.mk 1 2 3)) :=
  c5_bucket_monotone (Cutoffs.mk 1 2 3) (3/2) (5/2) (by norm_num) (by norm_num) (by norm_num)

/-- C6: for every data object that omits exactly one of the eight
required keys, the validation loop reports exactly that field and the
handler fails with the error message naming it; and for every data
object containing all eight keys, no missing-field error is raised — key
presence alone suffices, values are never inspected. -/
theorem c6_missing_field_detection (has : String → Bool) (fld : String)
    (payload : ApplicantData) (e : ℚ) (cu : Cutoffs)
    (h1 : fld ∈ requiredFields) (h2 : has fld = false)
    (h3 : ∀ g ∈ requiredFields, g ≠ fld → has g = true) :
    firstMissingField has = some fld ∧
    handleRequest (.parsed (some (.obj has payload))) e cu =
      errorResponse ("Missing required field: " ++ fld) ∧
    (∀ has2 : String → Bool, (∀ g ∈ requiredFields, has2 g = true) →
      firstMissingField has2 = none) := by
  have hfind : firstMissingField has = some fld :=
    find_missing_unique requiredFields has fld h1 h2 h3
  refine ⟨hfind, ?_, ?_⟩
  · simp [handleRequest, dataTruthy, truthy, hfind]
  · intro has2 hall
    unfold firstMissingField
    rw [List.find?_eq_none]
    intro x hx
    simp [hall x hx]

/-- Witness for C6: a data object with every key except employment_years;
the loop reports employment_years, and an object with all keys passes. -/
theorem c6_missing_field_detection_witness :
    firstMissingField (fun s => !(s == "employment_years")) = some "employment_years" ∧
    handleRequest (.parsed (some (.obj (fun s => !(s == "employment_years")) neutralRecord)))
      0 (Cutoffs.mk 1 2 3) =
      errorResponse ("Missing required field: " ++ "employment_years") ∧
    (∀ has2 : String → Bool, (∀ g ∈ requiredFields, has2 g = true) →
      firstMissingField has2 = none) :=
  c6_missing_field_detection (fun s => !(s == "employment_years")) "employment_years"
    neutralRecord 0 (Cutoffs.mk 1 2 3) (by decide) (by decide) (by decide)

/-- C7: the handler is total over its outcomes: every request either fully
succeeds with status 200 and a body holding exactly a probability and a
bucket, or fully fails with status 500 and a structured error body
carrying the failure message; and a body without a data payload fails
with the message "Missing data field in request". -/
theorem c7_handler_total_outcomes :
    (∀ (inp : HandlerInput) (e : ℚ) (cu : Cutoffs),
      (∃ p b, handleRequest inp e cu = { status := 200, body := .success p b }) ∨
      (∃ msg, handleRequest inp e cu =
        { status := 500, body := .failure msg "Failed to process prediction request" })) ∧
    (∀ (e : ℚ) (cu : Cutoffs),
      handleRequest (.parsed none) e cu =
        { status := 500,
          body := .failure "Missing data field in request"
            "Failed to process prediction request" }) := by
  constructor
  · intro inp e cu
    cases inp with
    | badJson msg => exact Or.inr ⟨msg, rfl⟩
    | parsed dv =>
      cases hdt : dataTruthy dv with
      | false =>
        refine Or.inr ⟨"Missing data field in request", ?_⟩
        cases dv with
        | none => rfl
        | some v => simp [handleRequest, hdt, errorResponse]
      | true =>
        cases dv with
        | none => simp [dataTruthy] at hdt
        | some v =>
          cases v with
          | obj has payload =>
            cases hm : firstMissingField has with
            | some fld =>
              exact Or.inr ⟨"Missing required field: " ++ fld,
                by simp [handleRequest, hdt, hm, errorResponse]⟩
            | none =>
              exact Or.inl ⟨(predictRisk payload e cu).1, (predictRisk payload e cu).2,
                by simp [handleRequest, hdt, hm]⟩
          | null => simp [dataTruthy, truthy] at hdt
          | boolean b =>
            exact Or.inr ⟨"Cannot use the in operator to search for a field in a non-object",
              by simp [handleRequest, hdt, errorResponse]⟩
          | num q =>
            exact Or.inr ⟨"Cannot use the in operator to search for a field in a non-object",
              by simp [handleRequest, hdt, errorResponse]⟩
          | str s =>
            exact Or.inr ⟨"Cannot use the in operator to search for a field in a non-object",
              by simp [handleRequest, hdt, errorResponse]⟩
  · intro e cu
    rfl

/-- C10: a request whose data key is present but bound to a falsy value
(null, 0, false, or the empty string) is rejected with the error message
"Missing data field in request", exactly as if the key were absent. -/
theorem c10_falsy_data_like_absent :
    ∀ (e : ℚ) (cu : Cutoffs),
      handleRequest (.parsed (some .null)) e cu =
        { status := 500,
          body := .failure "Missing data field in request"
            "Failed to process prediction request" } ∧
      handleRequest (.parsed (some (.num 0))) e cu =
        handleRequest (.parsed none) e cu ∧
      handleRequest (.parsed (some (.boolean false))) e cu =
        handleRequest (.parsed none) e cu ∧
      handleRequest (.parsed (some (.str ""))) e cu =
        handleRequest (.parsed none) e cu ∧
      handleRequest (.parsed (some .null)) e cu =
        handleRequest (.parsed none) e cu := by
  intro e cu
  have hnum : truthy (.num 0) = false := by
    norm_num [truthy]
  have hstr : truthy (.str "") = false := by
    simp [truthy]
  refine ⟨rfl, ?_, rfl, ?_, rfl⟩ <;>
    simp [handleRequest, hnum, hstr, dataTruthy, errorResponse]

/-- C9: with the perturbation fixed, `predictRisk` is deterministic and
independent of the gender field: two records agreeing on all fields
except possibly gender receive identical probability and bucket. -/
theorem c9_gender_inert (d1 d2 : ApplicantData) (e : ℚ) (cu : Cutoffs)
    (h1 : d1.annual_income = d2.annual_income)
    (h2 : d1.credit_amount = d2.credit_amount)
    (h3 : d1.annuity = d2.annuity)
    (h4 : d1.age = d2.age)
    (h5 : d1.employment_years = d2.employment_years)
    (h6 : d1.contract_type = d2.contract_type)
    (h7 : d1.education = d2.education) :
    predictRisk d1 e cu = predictRisk d2 e cu := by
  simp only [predictRisk, probabilityOf, baseProbability, rawRiskScore,
    h1, h2, h3, h4, h5, h6, h7]

/-- Witness for C9: two records differing only in gender get the same
result. -/
theorem c9_gender_inert_witness :
    predictRisk
      { annual_income := 100, credit_amount := 50, annuity := 0, age := 30,
        employment_years := 5, gender := "M", contract_type := "Cash loans",
        education := "Higher education" } 0 (Cutoffs.mk 1 2 3) =
    predictRisk
      { annual_income := 100, credit_amount := 50, annuity := 0, age := 30,
        employment_years := 5, gender := "F", contract_type := "Cash loans",
        education := "Higher education" } 0 (Cutoffs.mk 1 2 3) :=
  c9_gender_inert _ _ _ _ rfl rfl rfl rfl rfl rfl rfl

/-- C8 counterexample: with income 0 and positive credit, the
credit-to-income ratio is +Infinity and the comparison with 3 evaluates
to TRUE (not false, as the claim says), and the returned probability is a
finite number, not NaN. -/
theorem c8_zero_income_counterexample :
    jsDiv (.fin zeroIncomeRecord.credit_amount) (.fin zeroIncomeRecord.annual_income)
      = .posInf ∧
    jsGt (jsDiv (.fin zeroIncomeRecord.credit_amount)
      (.fin zeroIncomeRecord.annual_income)) (.fin 3) = true ∧
    jsRiskScore zeroIncomeRecord = 12/100 ∧
    jsPredict zeroIncomeRecord 0 = .fin (12/100) ∧
    jsPredict zeroIncomeRecord 0 ≠ .nan := by
  have hdiv : jsDiv (.fin zeroIncomeRecord.credit_amount)
      (.fin zeroIncomeRecord.annual_income) = .posInf := by
    norm_num [jsDiv, zeroIncomeRecord]
  have hdti : jsDiv (jsMul (.fin zeroIncomeRecord.annuity) (.fin 12))
      (.fin zeroIncomeRecord.annual_income) = .posInf := by
    norm_num [jsDiv, jsMul, zeroIncomeRecord]
  have hscore : jsRiskScore zeroIncomeRecord = 12/100 := by
    simp only [jsRiskScore]
    rw [hdiv, hdti]
    norm_num [jsGt, zeroIncomeRecord, cash_ne_revolving]
  have hpred : jsPredict zeroIncomeRecord 0 = .fin (12/100) := by
    simp only [jsPredict, hscore, jsMin, jsMax, jsAdd]
    rw [min_eq_right (by norm_num : (12:ℚ)/100 ≤ 2/5),
      max_eq_right (by norm_num : (0:ℚ) ≤ 12/100)]
    norm_num
  refine ⟨hdiv, by rw [hdiv]; rfl, hscore, hpred, by rw [hpred]; simp⟩

/-- C8 amended: when income is 0 and credit and annuity are positive, the
request is not rejected (key presence alone is validated and prediction
proceeds to a 200 response); both ratios are +Infinity; the threshold
comparisons on them evaluate to true, contributing +0.08 and +0.06; and
the returned probability is a finite number, never NaN — NaN would arise
in a ratio only if credit (resp. annuity) were zero as well. -/
theorem c8_zero_income_amended (d : ApplicantData) (e : ℚ) (cu : Cutoffs)
    (h0 : d.annual_income = 0) (hc : 0 < d.credit_amount) (ha : 0 < d.annuity) :
    jsDiv (.fin d.credit_amount) (.fin d.annual_income) = .posInf ∧
    jsDiv (jsMul (.fin d.annuity) (.fin 12)) (.fin d.annual_income) = .posInf ∧
    jsGt (jsDiv (.fin d.credit_amount) (.fin d.annual_income)) (.fin 3) = true ∧
    jsGt (jsDiv (jsMul (.fin d.annuity) (.fin 12)) (.fin d.annual_income))
      (.fin (1/2)) = true ∧
    (∃ q : ℚ, jsPredict d e = .fin q) ∧
    jsPredict d e ≠ .nan ∧
    (∀ has : String → Bool, (∀ g ∈ requiredFields, has g = true) →
      (handleRequest (.parsed (some (.obj has d))) e cu).status = 200) := by
  have hdiv : jsDiv (.fin d.credit_amount) (.fin d.annual_income) = .posInf := by
    simp [jsDiv, h0, hc]
  have hm : (0:ℚ) < d.annuity * 12 := by positivity
  have hdti : jsDiv (jsMul (.fin d.annuity) (.fin 12)) (.fin d.annual_income) = .posInf := by
    simp [jsDiv, jsMul, h0, hm]
  have hfin : jsPredict d e = .fin (max 0 (min (2/5) (jsRiskScore d)) + e) := rfl
  refine ⟨hdiv, hdti, by rw [hdiv]; rfl, by rw [hdti]; rfl,
    ⟨_, hfin⟩, by rw [hfin]; simp, ?_⟩
  intro has hall
  have hnone : firstMissingField has = none := by
    unfold firstMissingField
    rw [List.find?_eq_none]
    intro x hx
    simp [hall x hx]
  simp [handleRequest, dataTruthy, truthy, hnone]

/-- Witness for C8 amended: the theorem applied to the concrete
zero-income record with perturbation 0 and cutoffs (1, 2, 3). -/
theorem c8_zero_income_amended_witness :
    jsDiv (.fin zeroIncomeRecord.credit_amount) (.fin zeroIncomeRecord.annual_income)
      = .posInf ∧
    jsPredict zeroIncomeRecord 0 ≠ .nan :=
  ⟨(c8_zero_income_amended zeroIncomeRecord 0 (Cutoffs.mk 1 2 3)
      (by norm_num [zeroIncomeRecord]) (by norm_num [zeroIncomeRecord])
      (by norm_num [zeroIncomeRecord])).1,
   (c8_zero_income_amended zeroIncomeRecord 0 (Cutoffs.mk 1 2 3)
      (by norm_num [zeroIncomeRecord]) (by norm_num [zeroIncomeRecord])
      (by norm_num [zeroIncomeRecord])).2.2.2.2.2.1⟩

end NeonRisk
